import Mathlib

/-!
Verification of the invest-helper technical scoring engine and data
reconciliation layer.

The TypeScript source is shallowly embedded: JavaScript `number`
arithmetic is modelled by `ℚ` (all branch conditions and clamps of the
engine are exact rational comparisons), `Math.round` by `jsRound`
(round half toward positive infinity), thrown errors by `Option`/`Except`,
and the in-place write into the caller's candle array by explicit state
passing (the final array state is returned alongside the result).
`Math.sqrt`, which is irrational-valued, is abstracted as a function
parameter `sqrtQ`; no verified property depends on its values.
-/

namespace InvestHelper

/-- JavaScript `Math.round`: round half toward positive infinity,
i.e. the floor of `q + 1/2` (`Rat.floor` is the integer floor). -/
def jsRound (q : ℚ) : ℤ := (q + 1 / 2).floor

/-- `Math.round(q * 100) / 100` — rounding of price outputs to cents. -/
def round2 (q : ℚ) : ℚ := (jsRound (q * 100) : ℚ) / 100

/-- `Math.round(q * 10) / 10` — rounding of percent outputs to one decimal. -/
def round1 (q : ℚ) : ℚ := (jsRound (q * 10) : ℚ) / 10

/-- `array.slice(-n)`: the last `n` elements (whole list when shorter). -/
def takeLast {α : Type} (n : ℕ) (l : List α) : List α := l.drop (l.length - n)

/-- Mean of a list of rationals (callers guard non-emptiness, as the source does). -/
def listAvg (l : List ℚ) : ℚ := l.sum / (l.length : ℚ)

/-- `Math.min(...xs)` over a non-empty spread (0 for `[]`, which callers rule out). -/
def listMin : List ℚ → ℚ
  | [] => 0
  | h :: t => t.foldl min h

/-- `Math.max(...xs)` over a non-empty spread (0 for `[]`, which callers rule out). -/
def listMax : List ℚ → ℚ
  | [] => 0
  | h :: t => t.foldl max h

/-- One OHLCV candle (`CandleDataType`); `timestamp` is the optional
unix-seconds field, 0 when the vendor supplied none. -/
structure CandleData where
  open_ : ℚ
  high : ℚ
  low : ℚ
  close : ℚ
  volume : ℚ
  timestamp : ℤ
deriving DecidableEq, Repr

inductive TrendDirection
  | uptrend
  | downtrend
  | sideways
deriving DecidableEq, Repr

inductive TrendStrength
  | weak
  | moderate
  | strong
deriving DecidableEq, Repr

/-- `TrendInfoType`. -/
structure TrendInfo where
  direction : TrendDirection
  strength : TrendStrength
deriving DecidableEq, Repr

inductive SellingPressure
  | increased
  | decreased
  | stable
deriving DecidableEq, Repr

inductive EnergyPattern
  | goldenCross
  | deadCross
  | nonePattern
deriving DecidableEq, Repr

/-- `EnergyInfoType`. -/
structure EnergyInfo where
  sellingPressure : SellingPressure
  pattern : EnergyPattern
deriving DecidableEq, Repr

/-- `PatternSimilarityType`. -/
structure PatternSimilarity where
  similarity : ℚ
  referenceYield : ℚ
deriving DecidableEq, Repr

inductive CandleDirection
  | up
  | down
  | neutral
deriving DecidableEq, Repr

/-- `CandlePatternType`. -/
structure CandlePattern where
  direction : CandleDirection
  pattern : String
deriving DecidableEq, Repr

inductive SignalType
  | bullishDivergence
  | bearishDivergence
  | noSignal
deriving DecidableEq, Repr

inductive SignalAction
  | buy
  | sell
  | hold
deriving DecidableEq, Repr

/-- `SignalInfoType`. -/
structure SignalInfo where
  type : SignalType
  action : SignalAction
  description : String
deriving DecidableEq, Repr

/-- `macd` sub-object of the technical indicators. -/
structure MACDData where
  value : ℚ
  signal : ℚ
  histogram : ℚ
deriving DecidableEq, Repr

/-- `sma` sub-object; the source reads `sma_20`/`sma_50`, each possibly absent. -/
structure SMAData where
  sma_20 : Option ℚ
  sma_50 : Option ℚ
deriving DecidableEq, Repr

/-- `TechnicalIndicatorsType` (externally supplied, never computed by the core). -/
structure TechnicalIndicators where
  rsi : Option ℚ
  macd : Option MACDData
  sma : Option SMAData
deriving DecidableEq, Repr

/-- JavaScript truthiness of an optional number: `undefined` and `0` are falsy. -/
def truthyNum : Option ℚ → Bool
  | none => false
  | some x => x != 0

/-- Grade if-chain shared verbatim by `calculateAIScore` (ai-analysis) and the
app-lib `combineAnalysis`: score≥90 SSS, ≥80 SS, ≥70 S, ≥60 A, ≥50 B, ≥40 C,
≥30 D, else F. -/
def gradeOf (score : ℤ) : String :=
  if score ≥ 90 then "SSS"
  else if score ≥ 80 then "SS"
  else if score ≥ 70 then "S"
  else if score ≥ 60 then "A"
  else if score ≥ 50 then "B"
  else if score ≥ 40 then "C"
  else if score ≥ 30 then "D"
  else "F"

/-- Position of a grade label in the ladder F < D < C < B < A < S < SS < SSS. -/
def gradeRank (g : String) : ℕ :=
  if g = "SSS" then 7
  else if g = "SS" then 6
  else if g = "S" then 5
  else if g = "A" then 4
  else if g = "B" then 3
  else if g = "C" then 2
  else if g = "D" then 1
  else 0

/-- Input record of `calculateAIScore`. -/
structure ScoreFactors where
  trend : TrendInfo
  energy : EnergyInfo
  patternSimilarity : PatternSimilarity
  obvResidualRate : ℚ
  candlePattern : CandlePattern
  signal : SignalInfo
  technicalIndicators : Option TechnicalIndicators

/-- Result of `calculateAIScore`. -/
structure ScoreGrade where
  score : ℤ
  grade : String
deriving DecidableEq, Repr

/-- `calculateAIScore` (src/unnamed/part_003 lines 21–153): base 50, additive
contributions from trend, energy, pattern similarity, OBV, candle pattern,
signal and the optional technical indicators, then
`Math.max(0, Math.min(100, Math.round(score)))` and the grade if-chain. -/
def calculateAIScore (factors : ScoreFactors) : ScoreGrade :=
  let score : ℚ := 50
  let score := score +
    (match factors.trend.direction, factors.trend.strength with
     | TrendDirection.uptrend, TrendStrength.strong => 20
     | TrendDirection.uptrend, TrendStrength.moderate => 15
     | TrendDirection.uptrend, TrendStrength.weak => 10
     | TrendDirection.downtrend, TrendStrength.strong => -20
     | TrendDirection.downtrend, TrendStrength.moderate => -15
     | TrendDirection.downtrend, TrendStrength.weak => -10
     | TrendDirection.sideways, _ => 0)
  let score := score +
    (match factors.energy.sellingPressure with
     | SellingPressure.decreased =>
       if factors.energy.pattern = EnergyPattern.goldenCross then 15 else 10
     | SellingPressure.increased =>
       if factors.energy.pattern = EnergyPattern.deadCross then -15 else -10
     | SellingPressure.stable => 0)
  let score := score + factors.patternSimilarity.similarity / 100 * 15
  let score := score + (if factors.patternSimilarity.referenceYield > 0 then 5 else 0)
  let score := score +
    (if factors.obvResidualRate > 1 then 10
     else if factors.obvResidualRate > 95 / 100 then 5
     else -5)
  let score := score +
    (match factors.candlePattern.direction with
     | CandleDirection.up => 10
     | CandleDirection.down => -10
     | CandleDirection.neutral => 0)
  let score := score +
    (if factors.signal.type = SignalType.bullishDivergence ∧
        factors.signal.action = SignalAction.buy then 15
     else if factors.signal.type = SignalType.bearishDivergence ∧
        factors.signal.action = SignalAction.sell then -15
     else 0)
  let score := score +
    (match factors.technicalIndicators with
     | none => 0
     | some ti =>
       (match ti.rsi with
        | none => 0
        | some rsi =>
          if rsi < 30 then 8
          else if rsi > 70 then -8
          else if rsi > 50 then 3
          else -3) +
       (match ti.macd with
        | none => 0
        | some macd =>
          if macd.histogram > 0 ∧ macd.value > macd.signal then 7
          else if macd.histogram < 0 ∧ macd.value < macd.signal then -7
          else 0) +
       (match ti.sma with
        | none => 0
        | some sma =>
          if truthyNum sma.sma_20 ∧ truthyNum sma.sma_50 then
            if sma.sma_20.getD 0 > sma.sma_50.getD 0 then 5 else -5
          else 0))
  let finalScore : ℤ := max 0 (min 100 (jsRound score))
  { score := finalScore, grade := gradeOf finalScore }

/-- Result record of `calculateTargetAndStopLoss`. -/
structure TargetStopLoss where
  targetPrice : ℚ
  targetReturn : ℚ
  stopLoss : ℚ
  stopLossPercent : ℚ
deriving DecidableEq, Repr

/-- Trend-conditioned branch of `calculateTargetAndStopLoss`
(src/unnamed/part_003 lines 190–287), producing the raw
`(targetPrice, stopLoss)` pair before the final safety net. -/
def tslBranch (currentPrice : ℚ) (trend : TrendInfo) (support resistance : ℚ) :
    ℚ × ℚ :=
  match trend.direction with
  | TrendDirection.uptrend =>
    let stopLoss :=
      if support < currentPrice ∧ support > currentPrice * (85 / 100) then support
      else if support < currentPrice * (85 / 100) then currentPrice * (92 / 100)
      else currentPrice * (95 / 100)
    let risk := currentPrice - stopLoss
    let minReward := risk * 2
    let targetPrice :=
      if resistance > currentPrice then
        if resistance - currentPrice ≥ minReward then
          min resistance (currentPrice * (115 / 100))
        else if currentPrice + minReward > resistance then
          min resistance (currentPrice * (115 / 100))
        else currentPrice + minReward
      else
        min (currentPrice + minReward) (currentPrice * (115 / 100))
    (targetPrice, stopLoss)
  | TrendDirection.downtrend =>
    if support < currentPrice ∧ support > currentPrice * (95 / 100) then
      (currentPrice + (currentPrice - support) * 2, support)
    else
      (currentPrice * (105 / 100), currentPrice * (975 / 1000))
  | TrendDirection.sideways =>
    let stopLoss :=
      if support < currentPrice ∧ support > currentPrice * (85 / 100) then support
      else if support < currentPrice * (85 / 100) then currentPrice * (95 / 100)
      else currentPrice * (95 / 100)
    let risk := currentPrice - stopLoss
    let minReward := risk * 2
    let targetPrice :=
      if resistance > currentPrice then
        if resistance - currentPrice ≥ minReward then
          min resistance (currentPrice * (110 / 100))
        else if currentPrice + minReward > resistance then
          min resistance (currentPrice * (110 / 100))
        else currentPrice + minReward
      else
        min (currentPrice + minReward) (currentPrice * (110 / 100))
    (targetPrice, stopLoss)

/-- Final safety net of `calculateTargetAndStopLoss`
(src/unnamed/part_003 lines 289–303): force `target > price` and
`stop < price`, then clamp the stop at a 10% loss, recomputing the target
as `price + 2.5 × risk` when the clamp fires. -/
def tslSafety (currentPrice : ℚ) (p : ℚ × ℚ) : ℚ × ℚ :=
  let targetPrice := if p.1 ≤ currentPrice then currentPrice * (105 / 100) else p.1
  let stopLoss := if p.2 ≥ currentPrice then currentPrice * (95 / 100) else p.2
  if stopLoss < currentPrice * (9 / 10) then
    (currentPrice + (currentPrice - currentPrice * (9 / 10)) * (5 / 2),
     currentPrice * (9 / 10))
  else (targetPrice, stopLoss)

/-- `calculateTargetAndStopLoss` (src/unnamed/part_003 lines 164–328).
On `ℚ` the source's `isNaN`/`isFinite` re-checks are vacuous (every value is
finite), so the returned fields are exactly the safety-netted values rounded
to cents / one decimal; the `!currentPrice || currentPrice <= 0 || isNaN ||
!isFinite` guard collapses to `currentPrice ≤ 0`. -/
def calculateTargetAndStopLoss (currentPrice : ℚ) (trend : TrendInfo)
    (support resistance : ℚ) : TargetStopLoss :=
  if currentPrice ≤ 0 then
    { targetPrice := 0, targetReturn := 0, stopLoss := 0, stopLossPercent := 0 }
  else
    let p := tslSafety currentPrice (tslBranch currentPrice trend support resistance)
    { targetPrice := round2 p.1
      targetReturn := round1 ((p.1 - currentPrice) / currentPrice * 100)
      stopLoss := round2 p.2
      stopLossPercent := round1 ((p.2 - currentPrice) / currentPrice * 100) }

/-- `calculateVolatility` (src/unnamed/part_003 lines 335–343): population
standard deviation of the closes; `Math.sqrt` abstracted as `sqrtQ`. -/
def calculateVolatility (sqrtQ : ℚ → ℚ) (prices : List ℚ) : ℚ :=
  if prices.length < 2 then 0
  else
    let avg := listAvg prices
    let variance := (prices.map (fun price => (price - avg) ^ 2)).sum / (prices.length : ℚ)
    sqrtQ variance

/-- `analyzeCandlePattern` (src/unnamed/part_003 lines 350–406): classify the
final candle; the entire classification is guarded by `totalRange > 0`, so a
candle with `high = low` keeps the defaults `neutral`/"Normal". -/
def analyzeCandlePattern (candles : List CandleData) : CandlePattern :=
  match candles.getLast? with
  | none => { direction := CandleDirection.neutral, pattern := "None" }
  | some lastCandle =>
    let body := |lastCandle.close - lastCandle.open_|
    let upperShadow := lastCandle.high - max lastCandle.open_ lastCandle.close
    let lowerShadow := min lastCandle.open_ lastCandle.close - lastCandle.low
    let totalRange := lastCandle.high - lastCandle.low
    if totalRange > 0 then
      if lastCandle.close > lastCandle.open_ then
        { direction := CandleDirection.up
          pattern :=
            if lowerShadow > body * 2 ∧ upperShadow < body * (1 / 2) then "Hammer"
            else if body < totalRange * (1 / 10) then "Doji"
            else "Normal" }
      else if lastCandle.close < lastCandle.open_ then
        { direction := CandleDirection.down
          pattern :=
            if upperShadow > body * 2 ∧ lowerShadow < body * (1 / 2) then "Shooting Star"
            else if body < totalRange * (1 / 10) then "Doji"
            else "Normal" }
      else
        { direction := CandleDirection.neutral, pattern := "Doji" }
    else
      { direction := CandleDirection.neutral, pattern := "Normal" }

inductive OBVStrength
  | weak
  | moderate
  | strong
deriving DecidableEq, Repr

/-- `getOBVStrength` (src/unnamed/part_003 lines 413–422). -/
def getOBVStrength (obvResidualRate : ℚ) : OBVStrength :=
  if obvResidualRate ≥ 105 / 100 then OBVStrength.strong
  else if obvResidualRate ≥ 95 / 100 then OBVStrength.moderate
  else OBVStrength.weak

/-- Input record of `performAIAnalysis`. -/
structure StockDataIn where
  currentPrice : ℚ
  candles : List CandleData
  technicalIndicators : Option TechnicalIndicators

/-- Narrative block attached by the LLM blend step. -/
structure LLMNarrative where
  summary : String
  riskFactors : List String
  strategy : String
  sentiment : String
  confidence : ℚ
deriving DecidableEq, Repr

/-- `AIAnalysisType`, the result record of `performAIAnalysis`. -/
structure AIAnalysis where
  score : ℤ
  grade : String
  trend : TrendInfo
  energy : EnergyInfo
  patternSimilarity : PatternSimilarity
  obvResidualRate : ℚ
  obvStrength : OBVStrength
  candlePattern : CandlePattern
  signal : SignalInfo
  technicalIndicators : Option TechnicalIndicators
  targetPrice : ℚ
  targetReturn : ℚ
  stopLoss : ℚ
  stopLossPercent : ℚ
  support : ℚ
  resistance : ℚ
  llmAnalysis : Option LLMNarrative
deriving DecidableEq, Repr

/-- Live-price reconciliation (src/unnamed/part_003 lines 442–472): when the
series is non-empty and the last close differs from `currentPrice` by more
than 0.001, patch the last slot of both the close history and the candle
array itself (`stockData.candles[len-1] = {...}` — the write into the
caller's array is modelled by returning the updated array). Returns
`(priceHistory, candles)` as left after this block. -/
def adjustCandles (currentPrice : ℚ) (candles0 : List CandleData) :
    List ℚ × List CandleData :=
  let priceHistory := candles0.map (fun c => c.close)
  match candles0.getLast? with
  | none => (priceHistory, candles0)
  | some lastCandle =>
    if |currentPrice - lastCandle.close| > 1 / 1000 then
      (priceHistory.set (priceHistory.length - 1) currentPrice,
       candles0.set (candles0.length - 1)
         { lastCandle with
           close := currentPrice
           high := max lastCandle.high currentPrice
           low := min lastCandle.low currentPrice })
    else (priceHistory, candles0)

/-- Trend block (src/unnamed/part_003 lines 474–512): blended price change
`0.7 × recentChange + 0.3 × totalChange` and its classification; all three
outputs keep their defaults (`0`, sideways, weak) when the history has at
most one point. -/
def trendBlock (currentPrice : ℚ) (priceHistory : List ℚ) : ℚ × TrendInfo :=
  if priceHistory.length > 1 then
    let totalChange := priceHistory.getLastD 0 - priceHistory.headD 0
    let recentPrices := takeLast 5 priceHistory
    let recentChange :=
      if recentPrices.length > 1 then
        recentPrices.getLastD 0 - recentPrices.headD 0
      else 0
    let priceChange := recentChange * (7 / 10) + totalChange * (3 / 10)
    let changePercent := priceChange / currentPrice * 100
    let direction :=
      if changePercent > 2 then TrendDirection.uptrend
      else if changePercent < -2 then TrendDirection.downtrend
      else TrendDirection.sideways
    let strength :=
      if |changePercent| > 10 then TrendStrength.strong
      else if |changePercent| > 5 then TrendStrength.moderate
      else TrendStrength.weak
    (priceChange, { direction := direction, strength := strength })
  else (0, { direction := TrendDirection.sideways, strength := TrendStrength.weak })

/-- Energy block (src/unnamed/part_003 lines 519–559): compare the mean of
the last 5 closes with the mean of the preceding window; with fewer than 2
points fall back to the sign of the blended price change. -/
def energyBlock (priceHistory : List ℚ) (priceChange : ℚ) : EnergyInfo :=
  if priceHistory.length ≥ 2 then
    let recentPrices := takeLast 5 priceHistory
    let olderPrices :=
      if priceHistory.length ≥ 10 then
        (priceHistory.drop (priceHistory.length - 10)).take 5
      else priceHistory.take (priceHistory.length / 2)
    let recentAvg := listAvg recentPrices
    let olderAvg := if olderPrices.length > 0 then listAvg olderPrices else recentAvg
    if recentAvg > olderAvg * (102 / 100) then
      { sellingPressure := SellingPressure.decreased, pattern := EnergyPattern.goldenCross }
    else if recentAvg < olderAvg * (98 / 100) then
      { sellingPressure := SellingPressure.increased, pattern := EnergyPattern.deadCross }
    else
      { sellingPressure := SellingPressure.stable, pattern := EnergyPattern.nonePattern }
  else
    { sellingPressure :=
        if priceChange > 0 then SellingPressure.decreased
        else if priceChange < 0 then SellingPressure.increased
        else SellingPressure.stable
      pattern :=
        if priceChange > 0 then EnergyPattern.goldenCross
        else if priceChange < 0 then EnergyPattern.deadCross
        else EnergyPattern.nonePattern }

/-- Pattern-similarity block (src/unnamed/part_003 lines 566–630). -/
def patternSimilarityBlock (sqrtQ : ℚ → ℚ) (currentPrice : ℚ)
    (priceHistory : List ℚ) : PatternSimilarity :=
  if priceHistory.length ≥ 10 then
    let recentTrend := takeLast 5 priceHistory
    let olderTrend := (priceHistory.drop (priceHistory.length - 10)).take 5
    let recentAvg := listAvg recentTrend
    let olderAvg := listAvg olderTrend
    let recentVolatility := calculateVolatility sqrtQ recentTrend
    let olderVolatility := calculateVolatility sqrtQ olderTrend
    let volatilityDiff := |recentVolatility - olderVolatility|
    let avgVolatility := (recentVolatility + olderVolatility) / 2
    let volatilitySimilarity :=
      if avgVolatility > 0 then max 0 (100 - volatilityDiff / avgVolatility * 100)
      else 80
    let recentDirection := recentTrend.getLastD 0 - recentTrend.headD 0
    let olderDirection := olderTrend.getLastD 0 - olderTrend.headD 0
    let directionSimilarity :=
      if recentDirection * olderDirection > 0 then 100
      else
        max 0 (50 - |recentDirection - olderDirection| /
          (if |olderDirection| = 0 then 1 else |olderDirection|) * 50)
    let similarity := volatilitySimilarity * (6 / 10) + directionSimilarity * (4 / 10)
    { similarity := (jsRound (min 100 (max 0 similarity)) : ℚ)
      referenceYield :=
        if olderAvg > 0 then (recentAvg - olderAvg) / olderAvg * 100 else 0 }
  else if priceHistory.length > 1 then
    let avgPrice := listAvg priceHistory
    { similarity := 60
      referenceYield :=
        if avgPrice > 0 then (currentPrice - avgPrice) / avgPrice * 100 else 0 }
  else { similarity := 0, referenceYield := 0 }

/-- OBV block (src/unnamed/part_003 lines 632–668): split day-over-day volume
by the sign of the close change, take `positive / (positive + negative)`
(0.5 when the total is 0) and remap `[0,1]` into `[0.8,1.2]`; neutral `1.0`
when the guard fails. -/
def obvBlock (priceHistory volumeHistory : List ℚ) : ℚ :=
  if volumeHistory.length > 0 ∧ volumeHistory.length = priceHistory.length ∧
     priceHistory.length > 1 then
    let pairs := (priceHistory.zip priceHistory.tail).zip volumeHistory.tail
    let positiveOBV :=
      ((pairs.filter fun x => decide (x.1.2 - x.1.1 > 0)).map (fun x => x.2)).sum
    let negativeOBV :=
      ((pairs.filter fun x => decide (x.1.2 - x.1.1 < 0)).map (fun x => x.2)).sum
    let totalOBV := positiveOBV + negativeOBV
    let rawRate := if totalOBV > 0 then positiveOBV / totalOBV else 1 / 2
    8 / 10 + rawRate * (4 / 10)
  else 1

/-- Signal block (src/unnamed/part_003 lines 676–684): sign of the blended
price change; a change of exactly 0 takes the `else` arm (bearish/sell). -/
def signalOf (priceChange : ℚ) : SignalInfo :=
  if priceChange > 0 then
    { type := SignalType.bullishDivergence
      action := SignalAction.buy
      description := "Bullish Divergence Detected (Buy)" }
  else
    { type := SignalType.bearishDivergence
      action := SignalAction.sell
      description := "Bearish Divergence Detected (Sell)" }

/-- Support/resistance block (src/unnamed/part_003 lines 686–733), before the
final cent-rounding: `min(low)*1.01` / `max(high)*0.99` over the last 10
candles, then the sequential clamps relative to `currentPrice`. -/
def supportResistanceRaw (currentPrice : ℚ) (candles : List CandleData) :
    ℚ × ℚ :=
  if candles.length > 1 then
    let recentCandles := takeLast 10 candles
    let minLow := listMin (recentCandles.map (fun c => c.low))
    let maxHigh := listMax (recentCandles.map (fun c => c.high))
    let support0 := minLow * (101 / 100)
    let resistance0 := maxHigh * (99 / 100)
    let support1 :=
      if support0 < currentPrice * (85 / 100) then currentPrice * (85 / 100)
      else support0
    let support2 :=
      if support1 > currentPrice * (98 / 100) then currentPrice * (95 / 100)
      else support1
    let resistance1 :=
      if resistance0 > currentPrice * (115 / 100) then currentPrice * (115 / 100)
      else resistance0
    let resistance2 :=
      if resistance1 < currentPrice * (102 / 100) then currentPrice * (110 / 100)
      else resistance1
    if support2 ≥ resistance2 then
      (currentPrice * (95 / 100), currentPrice * (110 / 100))
    else (support2, resistance2)
  else (currentPrice * (95 / 100), currentPrice * (110 / 100))

/-- Body of `performAIAnalysis` after the price-validity guard
(src/unnamed/part_003 lines 442–773). The second component is the state of
the caller's candle array after the call. -/
def performAIAnalysisCore (sqrtQ : ℚ → ℚ) (stockData : StockDataIn) :
    AIAnalysis × List CandleData :=
  let cp := stockData.currentPrice
  let volumeHistory := stockData.candles.map (fun c => c.volume)
  let adj := adjustCandles cp stockData.candles
  let priceHistory := adj.1
  let candles := adj.2
  let tb := trendBlock cp priceHistory
  let priceChange := tb.1
  let trend := tb.2
  let energy := energyBlock priceHistory priceChange
  let patternSimilarity := patternSimilarityBlock sqrtQ cp priceHistory
  let obvResidualRate := obvBlock priceHistory volumeHistory
  let obvStrength := getOBVStrength obvResidualRate
  let candlePattern := analyzeCandlePattern candles
  let signal := signalOf priceChange
  let sr := supportResistanceRaw cp candles
  let sg := calculateAIScore
    { trend := trend
      energy := energy
      patternSimilarity := patternSimilarity
      obvResidualRate := obvResidualRate
      candlePattern := candlePattern
      signal := signal
      technicalIndicators := stockData.technicalIndicators }
  let tsl := calculateTargetAndStopLoss cp trend sr.1 sr.2
  ({ score := sg.score
     grade := sg.grade
     trend := trend
     energy := energy
     patternSimilarity := patternSimilarity
     obvResidualRate := round2 obvResidualRate
     obvStrength := obvStrength
     candlePattern := candlePattern
     signal := signal
     technicalIndicators := stockData.technicalIndicators
     targetPrice := tsl.targetPrice
     targetReturn := tsl.targetReturn
     stopLoss := tsl.stopLoss
     stopLossPercent := tsl.stopLossPercent
     support := round2 sr.1
     resistance := round2 sr.2
     llmAnalysis := none }, candles)

/-- `performAIAnalysis` (src/unnamed/part_003 lines 427–773). The thrown
`유효하지 않은 현재가` error is modelled by `none`; on `ℚ` the guard
`!currentPrice || currentPrice <= 0 || isNaN || !isFinite` collapses to
`currentPrice ≤ 0`. -/
def performAIAnalysis (sqrtQ : ℚ → ℚ) (stockData : StockDataIn) :
    Option (AIAnalysis × List CandleData) :=
  if stockData.currentPrice ≤ 0 then none
  else some (performAIAnalysisCore sqrtQ stockData)

/-- A concrete stand-in for `Math.sqrt` used to evaluate the engine at
specific inputs; no verified property depends on square-root values. -/
def sqrtZero : ℚ → ℚ := fun _ => 0

/-- `LLMAnalysisResultType`: the externally obtained narrative result. -/
structure LLMAnalysisResult where
  score : ℚ
  grade : String
  summary : String
  riskFactors : List String
  strategy : String
  sentiment : String
  confidence : ℚ
deriving DecidableEq, Repr

/-- The app-lib `combineAnalysis` variant (src/unnamed/part_001 lines
549–596): plain 70/30 weighted blend, regraded with the same lenient
threshold chain as `calculateAIScore`. -/
def combineAnalysisApp (technicalAnalysis : AIAnalysis)
    (llmAnalysis : Option LLMAnalysisResult) : AIAnalysis :=
  match llmAnalysis with
  | none => technicalAnalysis
  | some llm =>
    let combinedScore :=
      jsRound ((technicalAnalysis.score : ℚ) * (7 / 10) + llm.score * (3 / 10))
    { technicalAnalysis with
      score := combinedScore
      grade := gradeOf combinedScore
      llmAnalysis := some
        { summary := llm.summary
          riskFactors := llm.riskFactors
          strategy := llm.strategy
          sentiment := llm.sentiment
          confidence := llm.confidence } }

/-- Strict grade chain of the entities-lib `combineAnalysis`
(src/src/entities/stock/lib/llm-analysis.ts lines 698–714): SSS at 98+,
SS 90+, S 85+, A 75+, B 65+, C 55+, D 45+, else F. -/
def strictGradeOf (score : ℤ) : String :=
  if score ≥ 98 then "SSS"
  else if score ≥ 90 then "SS"
  else if score ≥ 85 then "S"
  else if score ≥ 75 then "A"
  else if score ≥ 65 then "B"
  else if score ≥ 55 then "C"
  else if score ≥ 45 then "D"
  else "F"

/-- The entities-lib `combineAnalysis` variant
(src/src/entities/stock/lib/llm-analysis.ts lines 682–731): subtracts a
10-point conservative penalty from the llm score (floored at 0) before the
70/30 blend and regrades with the strict chain. -/
def combineAnalysisEntities (technicalAnalysis : AIAnalysis)
    (llmAnalysis : Option LLMAnalysisResult) : AIAnalysis :=
  match llmAnalysis with
  | none => technicalAnalysis
  | some llm =>
    let adjustedLLMScore := max 0 (llm.score - 10)
    let combinedScore :=
      jsRound ((technicalAnalysis.score : ℚ) * (7 / 10) + adjustedLLMScore * (3 / 10))
    { technicalAnalysis with
      score := combinedScore
      grade := strictGradeOf combinedScore
      llmAnalysis := some
        { summary := llm.summary
          riskFactors := llm.riskFactors
          strategy := llm.strategy
          sentiment := llm.sentiment
          confidence := llm.confidence } }

/-- One candidate price (`priceSources` element of `fetchStockInfo`,
src/src/entities/stock/lib/stock-data.ts lines 29–73). -/
structure PriceSource where
  price : ℚ
  timestamp : ℤ
  source : String
deriving DecidableEq, Repr

/-- Price reconciliation of `fetchStockInfo`
(src/src/entities/stock/lib/stock-data.ts lines 76–85): the candidates
gathered from the fault-tolerant provider calls are reduced with
`current.timestamp > prev.timestamp ? current : prev`; zero candidates
throw the all-sources-failed error, modelled as `Except.error`. -/
def selectLatestPrice (priceSources : List PriceSource) :
    Except String PriceSource :=
  match priceSources with
  | [] => Except.error "모든 데이터 소스 실패"
  | h :: t =>
    Except.ok (t.foldl
      (fun prev current =>
        if current.timestamp > prev.timestamp then current else prev) h)

/-- Finnhub candle response (`getStockCandles` result shape,
src/unnamed/part_000). -/
structure FinnhubCandles where
  s : String
  o : List ℚ
  h : List ℚ
  l : List ℚ
  c : List ℚ
  v : List ℚ
  t : List ℤ
deriving DecidableEq, Repr

/-- One Tiingo EOD row. `date` models the millisecond epoch that
`new Date(d.date).getTime()` yields for the ISO date string; the adjusted
fields are `undefined`-able. -/
structure EODRow where
  date : ℤ
  open_ : ℚ
  high : ℚ
  low : ℚ
  close : ℚ
  volume : ℚ
  adjOpen : Option ℚ
  adjHigh : Option ℚ
  adjLow : Option ℚ
  adjClose : Option ℚ
  adjVolume : Option ℚ
deriving DecidableEq, Repr

/-- JavaScript `a || b` over an optional number: `undefined` and `0` fall
back to `b`. -/
def orFallback (a : Option ℚ) (b : ℚ) : ℚ :=
  match a with
  | none => b
  | some x => if x = 0 then b else x

/-- `arr[index] || dflt`: out-of-range and `0` both fall back. -/
def idxOr (l : List ℚ) (i : ℕ) (dflt : ℚ) : ℚ :=
  match l.get? i with
  | none => dflt
  | some x => if x = 0 then dflt else x

/-- Finnhub-to-candle conversion of `fetchPriceHistory`
(src/src/entities/stock/lib/stock-data.ts lines 141–148). -/
def finnhubToCandles (cd : FinnhubCandles) : List CandleData :=
  (List.range cd.c.length).map fun i =>
    let close := cd.c.getD i 0
    { open_ := idxOr cd.o i close
      high := idxOr cd.h i close
      low := idxOr cd.l i close
      close := close
      volume := idxOr cd.v i 0
      timestamp := cd.t.getD i 0 }

/-- Date order on EOD rows used by the fallback sort (`dateA - dateB`
comparator, ascending). -/
def dateLE (a b : EODRow) : Prop := a.date ≤ b.date

instance : DecidableRel dateLE := fun a b => Int.decLe a.date b.date

instance : IsTotal EODRow dateLE := ⟨fun a b => Int.le_total a.date b.date⟩

instance : IsTrans EODRow dateLE := ⟨fun _ _ _ hab hbc => le_trans hab hbc⟩

/-- Ascending-by-date sort of the Tiingo EOD rows
(src/src/entities/stock/lib/stock-data.ts lines 179–183). -/
def sortEOD (rows : List EODRow) : List EODRow := rows.insertionSort dateLE

/-- Tiingo-row-to-candle conversion (src/src/entities/stock/lib/stock-data.ts
lines 187–207): adjusted fields preferred with JS `||` truthiness;
`tsOfDate` models the date-string → 16:00-UTC-unix-seconds conversion. -/
def eodToCandle (tsOfDate : ℤ → ℤ) (d : EODRow) : CandleData :=
  { open_ := orFallback d.adjOpen d.open_
    high := orFallback d.adjHigh d.high
    low := orFallback d.adjLow d.low
    close := orFallback d.adjClose d.close
    volume := orFallback d.adjVolume d.volume
    timestamp := tsOfDate d.date }

/-- Result record of `fetchPriceHistory`. -/
structure HistoryResult where
  candles : List CandleData
  lastUpdated : ℤ
  dataSource : String
deriving DecidableEq, Repr

/-- `fetchPriceHistory` (src/src/entities/stock/lib/stock-data.ts lines
124–231) over already-fetched vendor payloads: `primary = none` models a
thrown Finnhub fetch, `eodData = none` a thrown Tiingo fetch. A primary
response is used only when `s = "ok"` and the close array is non-empty;
otherwise the Tiingo fallback is sorted ascending by date and converted;
when that too is empty or failing the function returns `null` (`none`). -/
def fetchPriceHistory (now : ℤ) (tsOfDate : ℤ → ℤ)
    (primary : Option FinnhubCandles) (eodData : Option (List EODRow)) :
    Option HistoryResult :=
  let tiingo : Option HistoryResult :=
    match eodData with
    | none => none
    | some rows =>
      if rows ≠ [] then
        let sorted := sortEOD rows
        some
          { candles := sorted.map (eodToCandle tsOfDate)
            lastUpdated := tsOfDate ((sorted.map (fun r => r.date)).getLastD 0)
            dataSource := "Tiingo (EOD)" }
      else none
  match primary with
  | some cd =>
    if cd.s = "ok" ∧ cd.c ≠ [] then
      some
        { candles := finnhubToCandles cd
          lastUpdated := if cd.t ≠ [] then cd.t.getLastD 0 else now
          dataSource := "Finnhub" }
    else tiingo
  | none => tiingo

/-! ### Helper lemmas -/

theorem gradeOf_mem_labels (s : ℤ) :
    gradeOf s ∈ ["SSS", "SS", "S", "A", "B", "C", "D", "F"] := by
  unfold gradeOf
  split_ifs <;> simp

theorem gradeRank_gradeOf (s : ℤ) :
    gradeRank (gradeOf s) =
      if s ≥ 90 then 7 else if s ≥ 80 then 6 else if s ≥ 70 then 5
      else if s ≥ 60 then 4 else if s ≥ 50 then 3 else if s ≥ 40 then 2
      else if s ≥ 30 then 1 else 0 := by
  unfold gradeOf
  split_ifs <;> rfl

set_option maxHeartbeats 1000000 in
theorem gradeOf_monotone (s t : ℤ) (hst : s ≤ t) :
    gradeRank (gradeOf s) ≤ gradeRank (gradeOf t) := by
  rw [gradeRank_gradeOf s, gradeRank_gradeOf t]
  split_ifs <;> omega

/-! ### C6 -/

/-- C6: for every combination of analysis factors, `calculateAIScore` returns
an integer score in [0,100], the grade is exactly the
90/80/70/60/50/40/30-threshold label of that score, hence one of the 8
labels, and the score-to-grade table is monotone non-decreasing. -/
theorem calculateAIScore_bounds_and_grade (factors : ScoreFactors) :
    0 ≤ (calculateAIScore factors).score ∧
    (calculateAIScore factors).score ≤ 100 ∧
    (calculateAIScore factors).grade = gradeOf (calculateAIScore factors).score ∧
    (calculateAIScore factors).grade ∈ ["SSS", "SS", "S", "A", "B", "C", "D", "F"] ∧
    ∀ s t : ℤ, s ≤ t → gradeRank (gradeOf s) ≤ gradeRank (gradeOf t) := by
  refine ⟨le_max_left 0 _, max_le (by norm_num) (min_le_left _ _), rfl, ?_, ?_⟩
  · exact gradeOf_mem_labels _
  · exact gradeOf_monotone

/-- C6 witness: the theorem applied to a concrete factor combination. -/
theorem calculateAIScore_bounds_and_grade_witness :
    0 ≤ (calculateAIScore
      { trend := { direction := TrendDirection.uptrend, strength := TrendStrength.strong }
        energy := { sellingPressure := SellingPressure.decreased, pattern := EnergyPattern.goldenCross }
        patternSimilarity := { similarity := 100, referenceYield := 5 }
        obvResidualRate := 11 / 10
        candlePattern := { direction := CandleDirection.up, pattern := "Hammer" }
        signal := { type := SignalType.bullishDivergence, action := SignalAction.buy, description := "" }
        technicalIndicators := none }).score ∧
    gradeRank (gradeOf 40) ≤ gradeRank (gradeOf 95) :=
  ⟨(calculateAIScore_bounds_and_grade _).1,
   (calculateAIScore_bounds_and_grade
      { trend := { direction := TrendDirection.uptrend, strength := TrendStrength.strong }
        energy := { sellingPressure := SellingPressure.decreased, pattern := EnergyPattern.goldenCross }
        patternSimilarity := { similarity := 100, referenceYield := 5 }
        obvResidualRate := 11 / 10
        candlePattern := { direction := CandleDirection.up, pattern := "Hammer" }
        signal := { type := SignalType.bullishDivergence, action := SignalAction.buy, description := "" }
        technicalIndicators := none }).2.2.2.2 40 95 (by norm_num)⟩

/-! ### C3 -/

theorem tslSafety_bracket (currentPrice : ℚ) (p : ℚ × ℚ)
    (hcp : 0 < currentPrice) :
    currentPrice < (tslSafety currentPrice p).1 ∧
    (tslSafety currentPrice p).2 < currentPrice := by
  simp only [tslSafety]
  split_ifs <;> constructor <;> simp only [] <;> linarith

/-- C3 counterexample: at `currentPrice = 0.001` (uptrend, support 0,
resistance 0) the cent-rounding collapses the returned target to 0, so the
returned `targetPrice > currentPrice` fails. -/
theorem calculateTargetAndStopLoss_round_collapse :
    (calculateTargetAndStopLoss (1 / 1000)
        { direction := TrendDirection.uptrend, strength := TrendStrength.weak }
        0 0).targetPrice = 0 ∧
    ¬ ((calculateTargetAndStopLoss (1 / 1000)
        { direction := TrendDirection.uptrend, strength := TrendStrength.weak }
        0 0).targetPrice > 1 / 1000) := by
  norm_num [calculateTargetAndStopLoss, tslBranch, tslSafety, round2, round1,
    jsRound, Rat.floor_def']

/-- C3 (amended): for every positive `currentPrice`, every trend and every
support/resistance input, the post-safety-net values satisfy
`targetPrice > currentPrice` and `stopLoss < currentPrice` BEFORE the final
cent-rounding, and the returned fields are exactly those values rounded to
cents — the rounding itself can collapse the strict inequality (see the
counterexample at `currentPrice = 0.001`). -/
theorem calculateTargetAndStopLoss_bracket (currentPrice : ℚ)
    (trend : TrendInfo) (support resistance : ℚ) (hcp : 0 < currentPrice) :
    currentPrice <
      (tslSafety currentPrice (tslBranch currentPrice trend support resistance)).1 ∧
    (tslSafety currentPrice (tslBranch currentPrice trend support resistance)).2 <
      currentPrice ∧
    (calculateTargetAndStopLoss currentPrice trend support resistance).targetPrice =
      round2 (tslSafety currentPrice (tslBranch currentPrice trend support resistance)).1 ∧
    (calculateTargetAndStopLoss currentPrice trend support resistance).stopLoss =
      round2 (tslSafety currentPrice (tslBranch currentPrice trend support resistance)).2 := by
  obtain ⟨h1, h2⟩ := tslSafety_bracket currentPrice
    (tslBranch currentPrice trend support resistance) hcp
  refine ⟨h1, h2, ?_, ?_⟩ <;>
    simp only [calculateTargetAndStopLoss, if_neg (not_le.mpr hcp)]

/-- C3 witness: the amended theorem applied at `currentPrice = 100`,
uptrend, support 95, resistance 108. -/
theorem calculateTargetAndStopLoss_bracket_witness :
    (0 : ℚ) < 100 ∧
    (100 < (tslSafety 100 (tslBranch 100
        { direction := TrendDirection.uptrend, strength := TrendStrength.weak }
        95 108)).1 ∧
     (tslSafety 100 (tslBranch 100
        { direction := TrendDirection.uptrend, strength := TrendStrength.weak }
        95 108)).2 < 100 ∧
     (calculateTargetAndStopLoss 100
        { direction := TrendDirection.uptrend, strength := TrendStrength.weak }
        95 108).targetPrice =
       round2 (tslSafety 100 (tslBranch 100
        { direction := TrendDirection.uptrend, strength := TrendStrength.weak }
        95 108)).1 ∧
     (calculateTargetAndStopLoss 100
        { direction := TrendDirection.uptrend, strength := TrendStrength.weak }
        95 108).stopLoss =
       round2 (tslSafety 100 (tslBranch 100
        { direction := TrendDirection.uptrend, strength := TrendStrength.weak }
        95 108)).2) :=
  ⟨by norm_num,
   calculateTargetAndStopLoss_bracket 100
     { direction := TrendDirection.uptrend, strength := TrendStrength.weak }
     95 108 (by norm_num)⟩

/-! ### C2 -/

/-- Engine input exhibiting the reward:risk violation: two rising candles
whose recent low puts the support at exactly 91 and whose high pushes the
raw resistance past the 1.15× cap, so the engine hands
`(support, resistance) = (91, 115)` to the uptrend branch. -/
def ratioInput : StockDataIn :=
  { currentPrice := 100
    candles :=
      [{ open_ := 95, high := 96, low := 9100 / 101, close := 95, volume := 1000, timestamp := 0 },
       { open_ := 95, high := 120, low := 95, close := 100, volume := 1200, timestamp := 0 }]
    technicalIndicators := none }

/-- C2: evaluation of the engine at a reachable uptrend input where the
1.15× target cap truncates the target below `price + 2 × risk`: the
returned pair is `(targetPrice, stopLoss) = (115, 91)` with reward:risk
`15/9 < 2`, contradicting the function's own documented 2:1 minimum. -/
theorem performAIAnalysis_ratio_below_two :
    (performAIAnalysis sqrtZero ratioInput).map
      (fun r => (r.1.trend.direction, r.1.support, r.1.resistance,
                 r.1.targetPrice, r.1.stopLoss)) =
      some (TrendDirection.uptrend, 91, 115, 115, 91) ∧
    ((115 : ℚ) - 100) / (100 - 91) < 2 := by
  norm_num [performAIAnalysis, performAIAnalysisCore, ratioInput, adjustCandles,
    trendBlock, supportResistanceRaw, takeLast, listMin, listMax,
    calculateTargetAndStopLoss, tslBranch, tslSafety, round2, round1, jsRound,
    Rat.floor_def']

/-! ### C4 -/

/-- C4 counterexample: the flat 15-candle scenario
(`open = high = low = close = 100`, volume 1000) has zero total range, so
the classifier's `totalRange > 0` guard skips every rule and the pattern
stays "Normal", not "Doji". -/
theorem analyzeCandlePattern_flat_not_doji :
    analyzeCandlePattern (List.replicate 15
      { open_ := 100, high := 100, low := 100, close := 100, volume := 1000, timestamp := 0 }) =
      { direction := CandleDirection.neutral, pattern := "Normal" } ∧
    ({ direction := CandleDirection.neutral, pattern := "Normal" } : CandlePattern) ≠
      { direction := CandleDirection.neutral, pattern := "Doji" } := by
  constructor
  · norm_num [analyzeCandlePattern, List.getLast?_replicate]
  · simp

/-- C4 (amended): the classifier returns "Doji" for a final candle with
`open == close` whenever the candle has positive total range
(`high > low`); when `high == low` (in particular the flat scenario) the
whole classification is skipped and the result is neutral/"Normal". -/
theorem analyzeCandlePattern_doji (candles : List CandleData) (c : CandleData)
    (hlast : candles.getLast? = some c) (hoc : c.open_ = c.close)
    (hrange : c.low < c.high) :
    analyzeCandlePattern candles =
      { direction := CandleDirection.neutral, pattern := "Doji" } := by
  unfold analyzeCandlePattern
  rw [hlast]
  have h1 : ¬ c.close > c.open_ := by rw [hoc]; exact lt_irrefl _
  have h2 : ¬ c.close < c.open_ := by rw [hoc]; exact lt_irrefl _
  simp only [if_pos (by linarith : c.high - c.low > 0), if_neg h1, if_neg h2]

/-- C4 witness: the amended theorem applied to a one-candle series whose
final candle has `open = close = 100`, `low = 95 < high = 105`. -/
theorem analyzeCandlePattern_doji_witness :
    ([({ open_ := 100, high := 105, low := 95, close := 100, volume := 1000,
         timestamp := 0 } : CandleData)].getLast? =
      some { open_ := 100, high := 105, low := 95, close := 100, volume := 1000,
             timestamp := 0 }) ∧
    (100 : ℚ) = 100 ∧ (95 : ℚ) < 105 ∧
    analyzeCandlePattern
      [{ open_ := 100, high := 105, low := 95, close := 100, volume := 1000,
         timestamp := 0 }] =
      { direction := CandleDirection.neutral, pattern := "Doji" } :=
  ⟨rfl, rfl, by norm_num,
   analyzeCandlePattern_doji _ _ rfl rfl (by norm_num)⟩

/-! ### C5 -/

theorem adjustCandles_length (currentPrice : ℚ) (candles0 : List CandleData) :
    (adjustCandles currentPrice candles0).2.length = candles0.length := by
  unfold adjustCandles
  cases h : candles0.getLast? with
  | none => simp
  | some c =>
    dsimp only
    split_ifs <;> simp

set_option maxHeartbeats 2000000 in
theorem supportResistanceRaw_band (currentPrice : ℚ)
    (candles : List CandleData) (hcp : 0 < currentPrice)
    (hlen : 1 < candles.length) :
    (85 / 100) * currentPrice ≤ (supportResistanceRaw currentPrice candles).1 ∧
    (supportResistanceRaw currentPrice candles).1 ≤ (98 / 100) * currentPrice ∧
    (102 / 100) * currentPrice ≤ (supportResistanceRaw currentPrice candles).2 ∧
    (supportResistanceRaw currentPrice candles).2 ≤ (115 / 100) * currentPrice := by
  unfold supportResistanceRaw
  rw [if_pos hlen]
  dsimp only
  split_ifs <;>
    refine ⟨by linarith, by linarith, by linarith, by linarith⟩

/-- C5 counterexample: two candles with lows 96 and highs 104 at
`currentPrice = 100` produce a returned support of 96.96, strictly above
the claimed `0.95 × price = 95` upper edge (the raw value 96.96 lies in
the (0.95, 0.98] gap that the clamps leave untouched). -/
theorem performAIAnalysis_support_above_band :
    (performAIAnalysis sqrtZero
      { currentPrice := 100
        candles :=
          [{ open_ := 100, high := 104, low := 96, close := 100, volume := 500, timestamp := 0 },
           { open_ := 100, high := 104, low := 96, close := 100, volume := 500, timestamp := 0 }]
        technicalIndicators := none }).map (fun r => r.1.support) =
      some (2424 / 25) ∧
    ¬ ((2424 / 25 : ℚ) ≤ (95 / 100) * 100) := by
  constructor
  · norm_num [performAIAnalysis, performAIAnalysisCore, adjustCandles,
      supportResistanceRaw, takeLast, listMin, listMax, round2, jsRound,
      Rat.floor_def']
  · norm_num

/-- C5 (amended): for every valid input with at least 2 candles, the
pre-rounding support of `performAIAnalysis` lies in
`[0.85 × price, 0.98 × price]` — not `[0.85, 0.95]`: raw values in the
`(0.95, 0.98]` gap pass through the clamps unchanged — the pre-rounding
resistance lies in `[1.02 × price, 1.15 × price]` as claimed, and the
returned fields are exactly these values rounded to cents. -/
theorem performAIAnalysis_support_resistance_band (sqrtQ : ℚ → ℚ)
    (sd : StockDataIn) (r : AIAnalysis × List CandleData)
    (hcp : 0 < sd.currentPrice) (hlen : 2 ≤ sd.candles.length)
    (heq : performAIAnalysis sqrtQ sd = some r) :
    (85 / 100) * sd.currentPrice ≤
      (supportResistanceRaw sd.currentPrice (adjustCandles sd.currentPrice sd.candles).2).1 ∧
    (supportResistanceRaw sd.currentPrice (adjustCandles sd.currentPrice sd.candles).2).1 ≤
      (98 / 100) * sd.currentPrice ∧
    (102 / 100) * sd.currentPrice ≤
      (supportResistanceRaw sd.currentPrice (adjustCandles sd.currentPrice sd.candles).2).2 ∧
    (supportResistanceRaw sd.currentPrice (adjustCandles sd.currentPrice sd.candles).2).2 ≤
      (115 / 100) * sd.currentPrice ∧
    r.1.support =
      round2 (supportResistanceRaw sd.currentPrice (adjustCandles sd.currentPrice sd.candles).2).1 ∧
    r.1.resistance =
      round2 (supportResistanceRaw sd.currentPrice (adjustCandles sd.currentPrice sd.candles).2).2 := by
  have hr : r = performAIAnalysisCore sqrtQ sd := by
    unfold performAIAnalysis at heq
    rw [if_neg (not_le.mpr hcp)] at heq
    exact (Option.some.inj heq).symm
  have hlen' : 1 < (adjustCandles sd.currentPrice sd.candles).2.length := by
    rw [adjustCandles_length]; omega
  obtain ⟨h1, h2, h3, h4⟩ :=
    supportResistanceRaw_band sd.currentPrice
      (adjustCandles sd.currentPrice sd.candles).2 hcp hlen'
  exact ⟨h1, h2, h3, h4, by rw [hr]; rfl, by rw [hr]; rfl⟩

/-- C5 witness: the amended theorem applied to the two-candle input with
lows 96 / highs 104 at price 100. -/
theorem performAIAnalysis_support_resistance_band_witness :
    (0 : ℚ) < 100 ∧
    2 ≤ ([{ open_ := 100, high := 104, low := 96, close := 100, volume := 500, timestamp := 0 },
          { open_ := 100, high := 104, low := 96, close := 100, volume := 500, timestamp := 0 }] :
          List CandleData).length ∧
    (85 / 100) * (100 : ℚ) ≤
      (supportResistanceRaw 100 (adjustCandles 100
        [{ open_ := 100, high := 104, low := 96, close := 100, volume := 500, timestamp := 0 },
         { open_ := 100, high := 104, low := 96, close := 100, volume := 500, timestamp := 0 }]).2).1 ∧
    (supportResistanceRaw 100 (adjustCandles 100
        [{ open_ := 100, high := 104, low := 96, close := 100, volume := 500, timestamp := 0 },
         { open_ := 100, high := 104, low := 96, close := 100, volume := 500, timestamp := 0 }]).2).1 ≤
      (98 / 100) * 100 :=
  ⟨by norm_num, by norm_num,
   (performAIAnalysis_support_resistance_band sqrtZero
      { currentPrice := 100
        candles :=
          [{ open_ := 100, high := 104, low := 96, close := 100, volume := 500, timestamp := 0 },
           { open_ := 100, high := 104, low := 96, close := 100, volume := 500, timestamp := 0 }]
        technicalIndicators := none }
      (performAIAnalysisCore sqrtZero
        { currentPrice := 100
          candles :=
            [{ open_ := 100, high := 104, low := 96, close := 100, volume := 500, timestamp := 0 },
             { open_ := 100, high := 104, low := 96, close := 100, volume := 500, timestamp := 0 }]
          technicalIndicators := none })
      (by norm_num) (by norm_num)
      (by rw [performAIAnalysis, if_neg] ; norm_num)).1,
   (performAIAnalysis_support_resistance_band sqrtZero
      { currentPrice := 100
        candles :=
          [{ open_ := 100, high := 104, low := 96, close := 100, volume := 500, timestamp := 0 },
           { open_ := 100, high := 104, low := 96, close := 100, volume := 500, timestamp := 0 }]
        technicalIndicators := none }
      (performAIAnalysisCore sqrtZero
        { currentPrice := 100
          candles :=
            [{ open_ := 100, high := 104, low := 96, close := 100, volume := 500, timestamp := 0 },
             { open_ := 100, high := 104, low := 96, close := 100, volume := 500, timestamp := 0 }]
          technicalIndicators := none })
      (by norm_num) (by norm_num)
      (by rw [performAIAnalysis, if_neg] ; norm_num)).2.1⟩

/-! ### C1 -/

/-- C1: evaluation at a failing input. With one candle
`open = high = low = close = 100` and `currentPrice = 101` (difference
above the 0.001 epsilon), the caller's candle array after the call holds
the patched candle `close = 101, high = 101` — the passed-in series is
mutated in place, contradicting the no-mutation claim (and the source's
own immutability comments). -/
theorem performAIAnalysis_mutates_caller_series :
    (performAIAnalysis sqrtZero
      { currentPrice := 101
        candles :=
          [{ open_ := 100, high := 100, low := 100, close := 100, volume := 1000, timestamp := 0 }]
        technicalIndicators := none }).map (fun r => r.2) =
      some [{ open_ := 100, high := 101, low := 100, close := 101, volume := 1000, timestamp := 0 }] ∧
    ([({ open_ := 100, high := 101, low := 100, close := 101, volume := 1000, timestamp := 0 } : CandleData)] ≠
      [({ open_ := 100, high := 100, low := 100, close := 100, volume := 1000, timestamp := 0 } : CandleData)]) := by
  constructor
  · norm_num [performAIAnalysis, performAIAnalysisCore, adjustCandles]
  · norm_num [CandleData.mk.injEq]

/-! ### C10 -/

theorem signalOf_pos {priceChange : ℚ} (h : priceChange > 0) :
    signalOf priceChange =
      { type := SignalType.bullishDivergence
        action := SignalAction.buy
        description := "Bullish Divergence Detected (Buy)" } := by
  unfold signalOf
  rw [if_pos h]

theorem signalOf_nonpos {priceChange : ℚ} (h : ¬ priceChange > 0) :
    signalOf priceChange =
      { type := SignalType.bearishDivergence
        action := SignalAction.sell
        description := "Bearish Divergence Detected (Sell)" } := by
  unfold signalOf
  rw [if_neg h]

/-- C10: for every valid input the signal of `performAIAnalysis` is either
bullish-divergence/buy or bearish-divergence/sell — the declared
alternatives `none` and `hold` are never produced — and a blended price
change of exactly 0 (in particular an empty candle series) yields
bearish-divergence/sell. -/
theorem performAIAnalysis_signal_dichotomy (sqrtQ : ℚ → ℚ)
    (sd : StockDataIn) (r : AIAnalysis × List CandleData)
    (hcp : 0 < sd.currentPrice)
    (heq : performAIAnalysis sqrtQ sd = some r) :
    ((r.1.signal.type = SignalType.bullishDivergence ∧
      r.1.signal.action = SignalAction.buy) ∨
     (r.1.signal.type = SignalType.bearishDivergence ∧
      r.1.signal.action = SignalAction.sell)) ∧
    r.1.signal.type ≠ SignalType.noSignal ∧
    r.1.signal.action ≠ SignalAction.hold ∧
    ((trendBlock sd.currentPrice (adjustCandles sd.currentPrice sd.candles).1).1 = 0 →
      r.1.signal.type = SignalType.bearishDivergence ∧
      r.1.signal.action = SignalAction.sell) ∧
    (sd.candles = [] →
      r.1.signal.type = SignalType.bearishDivergence ∧
      r.1.signal.action = SignalAction.sell) := by
  have hr : r = performAIAnalysisCore sqrtQ sd := by
    unfold performAIAnalysis at heq
    rw [if_neg (not_le.mpr hcp)] at heq
    exact (Option.some.inj heq).symm
  have hsig : r.1.signal =
      signalOf (trendBlock sd.currentPrice (adjustCandles sd.currentPrice sd.candles).1).1 := by
    rw [hr]; rfl
  rw [hsig]
  by_cases hpos :
    (trendBlock sd.currentPrice (adjustCandles sd.currentPrice sd.candles).1).1 > 0
  · rw [signalOf_pos hpos]
    refine ⟨Or.inl ⟨rfl, rfl⟩, by simp, by simp, ?_, ?_⟩
    · intro h0
      rw [h0] at hpos
      exact absurd hpos (lt_irrefl 0)
    · intro hemp
      rw [hemp] at hpos
      have : (trendBlock sd.currentPrice (adjustCandles sd.currentPrice ([] : List CandleData)).1).1 = 0 := rfl
      rw [this] at hpos
      exact absurd hpos (lt_irrefl 0)
  · rw [signalOf_nonpos hpos]
    exact ⟨Or.inr ⟨rfl, rfl⟩, by simp, by simp, fun _ => ⟨rfl, rfl⟩, fun _ => ⟨rfl, rfl⟩⟩

/-- The spec's flat scenario: 15 candles `open = high = low = close = 100`,
constant volume 1000, at `currentPrice = 100`. -/
def flatInput : StockDataIn :=
  { currentPrice := 100
    candles := List.replicate 15
      { open_ := 100, high := 100, low := 100, close := 100, volume := 1000, timestamp := 0 }
    technicalIndicators := none }

/-- C10 witness: the theorem applied to the flat 15-candle scenario, whose
blended price change is exactly 0. -/
theorem performAIAnalysis_signal_dichotomy_witness :
    (0 : ℚ) < flatInput.currentPrice ∧
    (((performAIAnalysisCore sqrtZero flatInput).1.signal.type = SignalType.bullishDivergence ∧
      (performAIAnalysisCore sqrtZero flatInput).1.signal.action = SignalAction.buy) ∨
     ((performAIAnalysisCore sqrtZero flatInput).1.signal.type = SignalType.bearishDivergence ∧
      (performAIAnalysisCore sqrtZero flatInput).1.signal.action = SignalAction.sell)) ∧
    (performAIAnalysisCore sqrtZero flatInput).1.signal.type ≠ SignalType.noSignal ∧
    (performAIAnalysisCore sqrtZero flatInput).1.signal.action ≠ SignalAction.hold ∧
    ((trendBlock flatInput.currentPrice (adjustCandles flatInput.currentPrice flatInput.candles).1).1 = 0 →
      (performAIAnalysisCore sqrtZero flatInput).1.signal.type = SignalType.bearishDivergence ∧
      (performAIAnalysisCore sqrtZero flatInput).1.signal.action = SignalAction.sell) ∧
    (flatInput.candles = [] →
      (performAIAnalysisCore sqrtZero flatInput).1.signal.type = SignalType.bearishDivergence ∧
      (performAIAnalysisCore sqrtZero flatInput).1.signal.action = SignalAction.sell) :=
  ⟨by norm_num [flatInput],
   performAIAnalysis_signal_dichotomy sqrtZero flatInput
     (performAIAnalysisCore sqrtZero flatInput)
     (by norm_num [flatInput])
     (by rw [performAIAnalysis, if_neg] ; norm_num [flatInput])⟩

/-! ### C7 -/

/-- A concrete technical result used to evaluate the two blend variants. -/
def techSample : AIAnalysis :=
  { score := 100
    grade := "SSS"
    trend := { direction := TrendDirection.uptrend, strength := TrendStrength.strong }
    energy := { sellingPressure := SellingPressure.decreased, pattern := EnergyPattern.goldenCross }
    patternSimilarity := { similarity := 100, referenceYield := 10 }
    obvResidualRate := 11 / 10
    obvStrength := OBVStrength.strong
    candlePattern := { direction := CandleDirection.up, pattern := "Normal" }
    signal := { type := SignalType.bullishDivergence, action := SignalAction.buy,
                description := "Bullish Divergence Detected (Buy)" }
    technicalIndicators := none
    targetPrice := 110
    targetReturn := 10
    stopLoss := 95
    stopLossPercent := -5
    support := 95
    resistance := 110
    llmAnalysis := none }

/-- A concrete narrative result with llm score 100. -/
def llmSample : LLMAnalysisResult :=
  { score := 100, grade := "SSS", summary := "s", riskFactors := [], strategy := "t",
    sentiment := "bullish", confidence := 90 }

/-- C7 counterexample: the entities-lib blend at technical score 100 and
llm score 100 returns 97 (the 10-point penalty is applied before the
70/30 blend, `round(70 + 0.3*90) = 97 ≠ round(70 + 30) = 100`) and grades
it "SS" under its strict table, while the lenient step-9 table grades 97
as "SSS" — so the claimed single no-penalty/lenient-table contract does
not hold for every blend step in the repository. -/
theorem combineAnalysisEntities_penalized :
    (combineAnalysisEntities techSample (some llmSample)).score = 97 ∧
    jsRound ((100 : ℚ) * (7 / 10) + (100 : ℚ) * (3 / 10)) = 100 ∧
    ((97 : ℤ) ≠ 100) ∧
    (combineAnalysisEntities techSample (some llmSample)).grade = "SS" ∧
    gradeOf 97 = "SSS" ∧
    ("SS" : String) ≠ "SSS" := by
  refine ⟨?_, ?_, by norm_num, ?_, ?_, by simp⟩
  · norm_num [combineAnalysisEntities, techSample, llmSample, jsRound, Rat.floor_def']
  · norm_num [jsRound, Rat.floor_def']
  · norm_num [combineAnalysisEntities, techSample, llmSample, jsRound,
      Rat.floor_def', strictGradeOf]
  · norm_num [gradeOf]

/-- C7 (amended): the repository has two blend implementations. The
app-lib `combineAnalysis` returns `round(technicalScore*0.7 + llmScore*0.3)`
with no other adjustment and regrades with the same lenient threshold table
as the technical scoring step; the entities-lib `combineAnalysis` first
replaces the llm score by `max(0, llmScore - 10)` and regrades with a
strict table (SSS at 98+). Both return the technical result unchanged when
the narrative is null. -/
theorem combineAnalysis_variants (t : AIAnalysis) (llm : LLMAnalysisResult) :
    combineAnalysisApp t none = t ∧
    combineAnalysisEntities t none = t ∧
    (combineAnalysisApp t (some llm)).score =
      jsRound ((t.score : ℚ) * (7 / 10) + llm.score * (3 / 10)) ∧
    (combineAnalysisApp t (some llm)).grade =
      gradeOf ((combineAnalysisApp t (some llm)).score) ∧
    (combineAnalysisEntities t (some llm)).score =
      jsRound ((t.score : ℚ) * (7 / 10) + max 0 (llm.score - 10) * (3 / 10)) ∧
    (combineAnalysisEntities t (some llm)).grade =
      strictGradeOf ((combineAnalysisEntities t (some llm)).score) :=
  ⟨rfl, rfl, rfl, rfl, rfl, rfl⟩

/-! ### C8 -/

theorem latestFold_spec (t : List PriceSource) : ∀ h : PriceSource,
    (t.foldl (fun prev current =>
        if current.timestamp > prev.timestamp then current else prev) h) ∈ h :: t ∧
    h.timestamp ≤ (t.foldl (fun prev current =>
        if current.timestamp > prev.timestamp then current else prev) h).timestamp ∧
    ∀ p ∈ t, p.timestamp ≤ (t.foldl (fun prev current =>
        if current.timestamp > prev.timestamp then current else prev) h).timestamp := by
  induction t with
  | nil =>
    intro h
    exact ⟨List.mem_singleton.mpr rfl, le_refl _, by simp⟩
  | cons a t ih =>
    intro h
    rw [List.foldl_cons]
    obtain ⟨hmem, hle, hall⟩ :=
      ih (if a.timestamp > h.timestamp then a else h)
    have hstep_h : h.timestamp ≤
        (if a.timestamp > h.timestamp then a else h).timestamp := by
      split_ifs with hc
      · exact le_of_lt hc
      · exact le_refl _
    have hstep_a : a.timestamp ≤
        (if a.timestamp > h.timestamp then a else h).timestamp := by
      split_ifs with hc
      · exact le_refl _
      · exact le_of_not_lt hc
    refine ⟨?_, le_trans hstep_h hle, ?_⟩
    · rcases List.mem_cons.mp hmem with heq | hmem'
      · rw [heq]
        split_ifs
        · exact List.mem_cons_of_mem _ (List.mem_cons_self _ _)
        · exact List.mem_cons_self _ _
      · exact List.mem_cons_of_mem _ (List.mem_cons_of_mem _ hmem')
    · intro p hp
      rcases List.mem_cons.mp hp with heq | hp'
      · rw [heq]
        exact le_trans hstep_a hle
      · exact hall p hp'

/-- C8: with a non-empty candidate list the reconciler of `fetchStockInfo`
returns one of the candidates whose timestamp is greater than or equal to
every candidate's (most recent wins regardless of source rank); with zero
candidates it fails with the all-sources-failed error instead of returning
a quote. -/
theorem selectLatestPrice_spec (priceSources : List PriceSource)
    (hne : priceSources ≠ []) :
    (∃ q, selectLatestPrice priceSources = Except.ok q ∧
      q ∈ priceSources ∧
      ∀ p ∈ priceSources, p.timestamp ≤ q.timestamp) ∧
    selectLatestPrice [] = Except.error "모든 데이터 소스 실패" := by
  refine ⟨?_, rfl⟩
  match priceSources, hne with
  | h :: t, _ =>
    obtain ⟨hmem, hle, hall⟩ := latestFold_spec t h
    refine ⟨_, rfl, hmem, ?_⟩
    intro p hp
    rcases List.mem_cons.mp hp with heq | hp'
    · rw [heq]; exact hle
    · exact hall p hp'

/-- C8 witness: the theorem applied to three concrete candidates with
timestamps 5, 9, 7. -/
theorem selectLatestPrice_spec_witness :
    ([{ price := 10, timestamp := 5, source := "Twelve Data" },
      { price := 11, timestamp := 9, source := "Tiingo (EOD)" },
      { price := 12, timestamp := 7, source := "Finnhub" }] : List PriceSource) ≠ [] ∧
    ((∃ q, selectLatestPrice
        [{ price := 10, timestamp := 5, source := "Twelve Data" },
         { price := 11, timestamp := 9, source := "Tiingo (EOD)" },
         { price := 12, timestamp := 7, source := "Finnhub" }] = Except.ok q ∧
      q ∈ [({ price := 10, timestamp := 5, source := "Twelve Data" } : PriceSource),
           { price := 11, timestamp := 9, source := "Tiingo (EOD)" },
           { price := 12, timestamp := 7, source := "Finnhub" }] ∧
      ∀ p ∈ [({ price := 10, timestamp := 5, source := "Twelve Data" } : PriceSource),
             { price := 11, timestamp := 9, source := "Tiingo (EOD)" },
             { price := 12, timestamp := 7, source := "Finnhub" }],
        p.timestamp ≤ q.timestamp) ∧
     selectLatestPrice [] = Except.error "모든 데이터 소스 실패") :=
  ⟨by simp,
   selectLatestPrice_spec
     [{ price := 10, timestamp := 5, source := "Twelve Data" },
      { price := 11, timestamp := 9, source := "Tiingo (EOD)" },
      { price := 12, timestamp := 7, source := "Finnhub" }]
     (by simp)⟩

/-! ### C9 -/

/-- C9: when the primary vendor's payload is failing or empty
(`primary = none` models a thrown fetch, otherwise `s ≠ "ok"` or no closes)
the history resolver returns `null` rather than throwing whenever the
fallback is also failing or empty; and when the fallback is used, the
returned series is the date-ascending sort of the vendor's rows (a sorted
permutation, oldest first), converted candle by candle. -/
theorem fetchPriceHistory_spec (now : ℤ) (tsOfDate : ℤ → ℤ)
    (primary : Option FinnhubCandles) (eodData : Option (List EODRow))
    (hp : ∀ cd, primary = some cd → ¬(cd.s = "ok" ∧ cd.c ≠ [])) :
    ((eodData = none ∨ eodData = some []) →
      fetchPriceHistory now tsOfDate primary eodData = none) ∧
    (∀ rows, rows ≠ [] → eodData = some rows →
      ∃ res, fetchPriceHistory now tsOfDate primary eodData = some res ∧
        res.candles = (sortEOD rows).map (eodToCandle tsOfDate) ∧
        List.Sorted dateLE (sortEOD rows) ∧
        (sortEOD rows).Perm rows ∧
        res.dataSource = "Tiingo (EOD)") := by
  have hred : fetchPriceHistory now tsOfDate primary eodData =
      (match eodData with
       | none => none
       | some rows =>
         if rows ≠ [] then
           some
             { candles := (sortEOD rows).map (eodToCandle tsOfDate)
               lastUpdated := tsOfDate (((sortEOD rows).map (fun r => r.date)).getLastD 0)
               dataSource := "Tiingo (EOD)" }
         else none) := by
    cases primary with
    | none => rfl
    | some cd =>
      have hnot := hp cd rfl
      unfold fetchPriceHistory
      dsimp only
      rw [if_neg hnot]
  constructor
  · intro hcase
    rcases hcase with hnone | hnil
    · rw [hred, hnone]
    · rw [hred, hnil]
      simp
  · intro rows hne heq
    rw [hred, heq]
    dsimp only
    rw [if_pos hne]
    refine ⟨_, rfl, rfl, ?_, ?_, rfl⟩
    · exact List.sorted_insertionSort dateLE rows
    · exact List.perm_insertionSort dateLE rows

/-- A concrete EOD row dated day 2 (later). -/
def eodRowLate : EODRow :=
  { date := 2, open_ := 10, high := 11, low := 9, close := 10, volume := 100,
    adjOpen := none, adjHigh := none, adjLow := none, adjClose := none,
    adjVolume := none }

/-- A concrete EOD row dated day 1 (earlier). -/
def eodRowEarly : EODRow :=
  { date := 1, open_ := 12, high := 13, low := 11, close := 12, volume := 200,
    adjOpen := some 6, adjHigh := some (13 / 2), adjLow := some (11 / 2),
    adjClose := some 6, adjVolume := some 400 }

/-- C9 witness: the theorem applied with a failing primary vendor and an
out-of-order two-row fallback payload. -/
theorem fetchPriceHistory_spec_witness :
    (∀ cd, (none : Option FinnhubCandles) = some cd → ¬(cd.s = "ok" ∧ cd.c ≠ [])) ∧
    (((some [eodRowLate, eodRowEarly] : Option (List EODRow)) = none ∨
        (some [eodRowLate, eodRowEarly] : Option (List EODRow)) = some [] →
      fetchPriceHistory 0 id none (some [eodRowLate, eodRowEarly]) = none) ∧
     (∀ rows, rows ≠ [] →
        (some [eodRowLate, eodRowEarly] : Option (List EODRow)) = some rows →
        ∃ res, fetchPriceHistory 0 id none (some [eodRowLate, eodRowEarly]) = some res ∧
          res.candles = (sortEOD rows).map (eodToCandle id) ∧
          List.Sorted dateLE (sortEOD rows) ∧
          (sortEOD rows).Perm rows ∧
          res.dataSource = "Tiingo (EOD)")) :=
  ⟨fun cd h => by simp at h,
   fetchPriceHistory_spec 0 id none (some [eodRowLate, eodRowEarly])
     (fun cd h => by simp at h)⟩

end InvestHelper
